import Mathlib

/-!
Verification of the Mergington High School activities API (`src/app.py`).

The service keeps an in-memory mapping from activity name to an activity
record and exposes two mutating handlers, `signup_for_activity` and
`remove_participant`.  We embed the Python dictionary as an association
list `Directory`, the handlers as pure functions returning the new
directory together with the response (`Except HTTPException`), and prove
the contract stated in the specification.
-/

set_option autoImplicit false

namespace Mergington

/-- One activity record: the four fields of each value of the Python
`activities` dictionary. -/
structure Activity where
  description : String
  schedule : String
  max_participants : Nat
  participants : List String
  deriving Repr, DecidableEq

/-- The in-memory database: an association list from activity name to
record, embedding the Python `dict` (insertion ordered, unique keys). -/
abbrev Directory := List (String × Activity)

/-- `name in activities` / `activities[name]`: first entry with the key. -/
def findActivity (d : Directory) (name : String) : Option Activity :=
  match d with
  | [] => none
  | (k, v) :: rest => if k = name then some v else findActivity rest name

/-- In-place mutation of the record stored under `name`: replace the first
entry whose key is `name` (a no-op when the key is absent). -/
def updateActivity (d : Directory) (name : String) (a : Activity) : Directory :=
  match d with
  | [] => []
  | (k, v) :: rest =>
      if k = name then (k, a) :: rest else (k, v) :: updateActivity rest name a

/-- The names present in the directory, in order. -/
def keys (d : Directory) : List String :=
  d.map Prod.fst

/-- `fastapi.HTTPException`: status code and detail string. -/
structure HTTPException where
  status_code : Nat
  detail : String
  deriving Repr, DecidableEq

/-- The seed record of "Chess Club". -/
def chessClub : Activity :=
  { description := "Learn strategies and compete in chess tournaments"
    schedule := "Fridays, 3:30 PM - 5:00 PM"
    max_participants := 12
    participants := ["michael@mergington.edu", "daniel@mergington.edu"] }

/-- The seed record of "Programming Class". -/
def programmingClass : Activity :=
  { description := "Learn programming fundamentals and build software projects"
    schedule := "Tuesdays and Thursdays, 3:30 PM - 4:30 PM"
    max_participants := 20
    participants := ["emma@mergington.edu", "sophia@mergington.edu"] }

/-- The seed record of "Gym Class". -/
def gymClass : Activity :=
  { description := "Physical education and sports activities"
    schedule := "Mondays, Wednesdays, Fridays, 2:00 PM - 3:00 PM"
    max_participants := 30
    participants := ["john@mergington.edu", "olivia@mergington.edu"] }

/-- The seed record of "Soccer Team". -/
def soccerTeam : Activity :=
  { description := "Practice soccer skills and compete with other schools"
    schedule := "Tuesdays, 4:00 PM - 5:30 PM"
    max_participants := 18
    participants := [] }

/-- The seed record of "Basketball Team". -/
def basketballTeam : Activity :=
  { description := "Train and play competitive basketball games"
    schedule := "Thursdays, 4:00 PM - 5:30 PM"
    max_participants := 15
    participants := [] }

/-- The seed record of "Art Club". -/
def artClub : Activity :=
  { description := "Create paintings, drawings, and digital art"
    schedule := "Wednesdays, 3:30 PM - 5:00 PM"
    max_participants := 16
    participants := [] }

/-- The seed record of "Drama Club". -/
def dramaClub : Activity :=
  { description := "Acting, improvisation, and stage performances"
    schedule := "Mondays, 4:00 PM - 5:30 PM"
    max_participants := 14
    participants := [] }

/-- The seed record of "Math Club". -/
def mathClub : Activity :=
  { description := "Solve challenging math problems and puzzles"
    schedule := "Fridays, 2:30 PM - 3:30 PM"
    max_participants := 12
    participants := [] }

/-- The seed record of "Robotics Club". -/
def roboticsClub : Activity :=
  { description := "Build and program robots"
    schedule := "Thursdays, 3:30 PM - 5:00 PM"
    max_participants := 12
    participants := [] }

/-- The module-level `activities` dictionary built at process start. -/
def activities : Directory :=
  [ ("Chess Club", chessClub),
    ("Programming Class", programmingClass),
    ("Gym Class", gymClass),
    ("Soccer Team", soccerTeam),
    ("Basketball Team", basketballTeam),
    ("Art Club", artClub),
    ("Drama Club", dramaClub),
    ("Math Club", mathClub),
    ("Robotics Club", roboticsClub) ]

/-- `POST /activities/{activity_name}/signup`.  Returns the directory after
the call together with the response body's `message`, or raises an
`HTTPException` (in which case the directory is untouched). -/
def signup_for_activity (d : Directory) (activity_name email : String) :
    Except HTTPException (Directory × String) :=
  match findActivity d activity_name with
  | none => .error ⟨404, "Activity not found"⟩
  | some activity =>
      if email ∈ activity.participants then
        .ok (d, "Student already signed up for this activity")
      else
        .ok (updateActivity d activity_name
               { activity with participants := activity.participants ++ [email] },
             s!"Signed up {email} for {activity_name}")

/-- `DELETE /activities/{activity_name}/remove`.  `list.remove` deletes the
first occurrence, embedded as `List.erase`. -/
def remove_participant (d : Directory) (activity_name email : String) :
    Except HTTPException (Directory × String) :=
  match findActivity d activity_name with
  | none => .error ⟨404, "Activity not found"⟩
  | some activity =>
      if email ∈ activity.participants then
        .ok (updateActivity d activity_name
               { activity with participants := activity.participants.erase email },
             s!"Removed {email} from {activity_name}")
      else
        .error ⟨404, "Participant not found in this activity"⟩

/-- The directory after a signup call: the new state on success, unchanged
on an `HTTPException` (a raised exception performs no mutation). -/
def signupState (d : Directory) (activity_name email : String) : Directory :=
  match signup_for_activity d activity_name email with
  | .ok (d', _) => d'
  | .error _ => d

/-- The directory after a remove call: the new state on success, unchanged
on an `HTTPException`. -/
def removeState (d : Directory) (activity_name email : String) : Directory :=
  match remove_participant d activity_name email with
  | .ok (d', _) => d'
  | .error _ => d

/-- One API call against the mutable directory. -/
inductive Op where
  | signup (activity_name email : String)
  | remove (activity_name email : String)
  deriving Repr, DecidableEq

/-- Effect of one call on the shared directory (failures mutate nothing). -/
def applyOp (d : Directory) : Op → Directory
  | .signup n e => signupState d n e
  | .remove n e => removeState d n e

/-- The directory after a whole sequence of calls. -/
def runOps (d : Directory) (ops : List Op) : Directory :=
  ops.foldl applyOp d

/-- Within each activity of `d`, no participant email appears twice. -/
def NoDupDirectory (d : Directory) : Prop :=
  ∀ p ∈ d, p.2.participants.Nodup

instance : DecidablePred NoDupDirectory := fun d =>
  inferInstanceAs (Decidable (∀ p ∈ d, p.2.participants.Nodup))

/-! ### Association-list lemmas -/

theorem find_update_self {d : Directory} {n : String} {act : Activity}
    (a : Activity) (hfind : findActivity d n = some act) :
    findActivity (updateActivity d n a) n = some a := by
  induction d with
  | nil => simp [findActivity] at hfind
  | cons p rest ih =>
      obtain ⟨k, v⟩ := p
      by_cases hk : k = n
      · simp [findActivity, updateActivity, hk]
      · simp [findActivity, updateActivity, hk] at hfind ⊢
        exact ih hfind

theorem find_update_ne {d : Directory} {n k : String} (a : Activity)
    (hk : k ≠ n) :
    findActivity (updateActivity d n a) k = findActivity d k := by
  induction d with
  | nil => simp [updateActivity]
  | cons p rest ih =>
      obtain ⟨k', v⟩ := p
      by_cases hk' : k' = n
      · subst hk'
        simp [findActivity, updateActivity, Ne.symm hk]
      · by_cases hkk : k' = k
        · subst hkk
          simp [findActivity, updateActivity, hk']
        · simp [findActivity, updateActivity, hk', hkk, ih]

theorem keys_update (d : Directory) (n : String) (a : Activity) :
    keys (updateActivity d n a) = keys d := by
  induction d with
  | nil => rfl
  | cons p rest ih =>
      obtain ⟨k, v⟩ := p
      by_cases hk : k = n
      · simp [keys, updateActivity, hk]
      · simp only [keys, updateActivity, hk, if_false, List.map_cons]
        simpa [keys] using ih

theorem update_find_self {d : Directory} {n : String} {act : Activity}
    (hfind : findActivity d n = some act) :
    updateActivity d n act = d := by
  induction d with
  | nil => rfl
  | cons p rest ih =>
      obtain ⟨k, v⟩ := p
      by_cases hk : k = n
      · simp [findActivity, hk] at hfind
        simp [updateActivity, hk, hfind]
      · simp [findActivity, hk] at hfind
        simp [updateActivity, hk, ih hfind]

theorem find_mem {d : Directory} {n : String} {act : Activity}
    (hfind : findActivity d n = some act) : (n, act) ∈ d := by
  induction d with
  | nil => simp [findActivity] at hfind
  | cons p rest ih =>
      obtain ⟨k, v⟩ := p
      by_cases hk : k = n
      · simp [findActivity, hk] at hfind
        simp [hk, hfind]
      · simp [findActivity, hk] at hfind
        exact List.mem_cons_of_mem _ (ih hfind)

theorem mem_update {d : Directory} {n : String} {a : Activity}
    {p : String × Activity} (hp : p ∈ updateActivity d n a) :
    p ∈ d ∨ p = (n, a) := by
  induction d with
  | nil => simp [updateActivity] at hp
  | cons q rest ih =>
      obtain ⟨k, v⟩ := q
      by_cases hk : k = n
      · subst hk
        simp [updateActivity] at hp
        rcases hp with hp | hp
        · right; simp [hp]
        · left; exact List.mem_cons_of_mem _ hp
      · simp [updateActivity, hk] at hp
        rcases hp with hp | hp
        · left; simp [hp]
        · rcases ih hp with h | h
          · left; exact List.mem_cons_of_mem _ h
          · right; exact h

/-! ### Branch characterizations of the two handlers -/

theorem signup_of_not_found {d : Directory} {n : String} (e : String)
    (hfind : findActivity d n = none) :
    signup_for_activity d n e = .error ⟨404, "Activity not found"⟩ := by
  simp [signup_for_activity, hfind]

theorem signup_of_mem {d : Directory} {n e : String} {act : Activity}
    (hfind : findActivity d n = some act) (hmem : e ∈ act.participants) :
    signup_for_activity d n e =
      .ok (d, "Student already signed up for this activity") := by
  simp [signup_for_activity, hfind, hmem]

theorem signup_of_not_mem {d : Directory} {n e : String} {act : Activity}
    (hfind : findActivity d n = some act) (hmem : e ∉ act.participants) :
    signup_for_activity d n e =
      .ok (updateActivity d n { act with participants := act.participants ++ [e] },
           s!"Signed up {e} for {n}") := by
  simp [signup_for_activity, hfind, hmem]

theorem remove_of_not_found {d : Directory} {n : String} (e : String)
    (hfind : findActivity d n = none) :
    remove_participant d n e = .error ⟨404, "Activity not found"⟩ := by
  simp [remove_participant, hfind]

theorem remove_of_mem {d : Directory} {n e : String} {act : Activity}
    (hfind : findActivity d n = some act) (hmem : e ∈ act.participants) :
    remove_participant d n e =
      .ok (updateActivity d n { act with participants := act.participants.erase e },
           s!"Removed {e} from {n}") := by
  simp [remove_participant, hfind, hmem]

theorem remove_of_not_mem {d : Directory} {n e : String} {act : Activity}
    (hfind : findActivity d n = some act) (hmem : e ∉ act.participants) :
    remove_participant d n e =
      .error ⟨404, "Participant not found in this activity"⟩ := by
  simp [remove_participant, hfind, hmem]

theorem signupState_of_mem {d : Directory} {n e : String} {act : Activity}
    (hfind : findActivity d n = some act) (hmem : e ∈ act.participants) :
    signupState d n e = d := by
  simp [signupState, signup_of_mem hfind hmem]

theorem signupState_of_not_mem {d : Directory} {n e : String} {act : Activity}
    (hfind : findActivity d n = some act) (hmem : e ∉ act.participants) :
    signupState d n e =
      updateActivity d n { act with participants := act.participants ++ [e] } := by
  simp [signupState, signup_of_not_mem hfind hmem]

theorem signupState_of_not_found {d : Directory} {n : String} (e : String)
    (hfind : findActivity d n = none) : signupState d n e = d := by
  simp [signupState, signup_of_not_found e hfind]

theorem removeState_of_mem {d : Directory} {n e : String} {act : Activity}
    (hfind : findActivity d n = some act) (hmem : e ∈ act.participants) :
    removeState d n e =
      updateActivity d n { act with participants := act.participants.erase e } := by
  simp [removeState, remove_of_mem hfind hmem]

theorem removeState_of_not_mem {d : Directory} {n e : String} {act : Activity}
    (hfind : findActivity d n = some act) (hmem : e ∉ act.participants) :
    removeState d n e = d := by
  simp [removeState, remove_of_not_mem hfind hmem]

theorem removeState_of_not_found {d : Directory} {n : String} (e : String)
    (hfind : findActivity d n = none) : removeState d n e = d := by
  simp [removeState, remove_of_not_found e hfind]

theorem update_update (d : Directory) (n : String) (a b : Activity) :
    updateActivity (updateActivity d n a) n b = updateActivity d n b := by
  induction d with
  | nil => rfl
  | cons p rest ih =>
      obtain ⟨k, v⟩ := p
      by_cases hk : k = n
      · simp [updateActivity, hk]
      · simp [updateActivity, hk, ih]

/-! ### Preservation of the no-duplicates invariant -/

theorem noDup_signupState (d : Directory) (n e : String)
    (h : NoDupDirectory d) : NoDupDirectory (signupState d n e) := by
  rcases hfa : findActivity d n with _ | act
  · rw [signupState_of_not_found e hfa]; exact h
  · by_cases hmem : e ∈ act.participants
    · rw [signupState_of_mem hfa hmem]; exact h
    · rw [signupState_of_not_mem hfa hmem]
      intro p hp
      rcases mem_update hp with hpd | hpe
      · exact h p hpd
      · subst hpe
        have hact : act.participants.Nodup := h (n, act) (find_mem hfa)
        simpa [List.nodup_append, hmem] using hact

theorem noDup_removeState (d : Directory) (n e : String)
    (h : NoDupDirectory d) : NoDupDirectory (removeState d n e) := by
  rcases hfa : findActivity d n with _ | act
  · rw [removeState_of_not_found e hfa]; exact h
  · by_cases hmem : e ∈ act.participants
    · rw [removeState_of_mem hfa hmem]
      intro p hp
      rcases mem_update hp with hpd | hpe
      · exact h p hpd
      · subst hpe
        exact (h (n, act) (find_mem hfa)).erase e
    · rw [removeState_of_not_mem hfa hmem]; exact h

theorem noDup_applyOp (d : Directory) (op : Op)
    (h : NoDupDirectory d) : NoDupDirectory (applyOp d op) := by
  cases op with
  | signup n e => exact noDup_signupState d n e h
  | remove n e => exact noDup_removeState d n e h

theorem noDup_runOps (d : Directory) (ops : List Op)
    (h : NoDupDirectory d) : NoDupDirectory (runOps d ops) := by
  induction ops generalizing d with
  | nil => exact h
  | cons op rest ih => exact ih (applyOp d op) (noDup_applyOp d op h)

theorem activities_noDup : NoDupDirectory activities := by decide

/-! ### Claim theorems -/

/-- C1: signup is idempotent with respect to membership.  When `e` is
already in activity `n`'s participants, `signup_for_activity` succeeds,
returns the directory unchanged with the already-registered message, and
running signup a second time yields the same final state as running it
once. -/
theorem c1_signup_idempotent (d : Directory) (n e : String) (act : Activity)
    (hfind : findActivity d n = some act) (hmem : e ∈ act.participants) :
    signup_for_activity d n e =
      .ok (d, "Student already signed up for this activity") ∧
    signupState (signupState d n e) n e = signupState d n e := by
  refine ⟨signup_of_mem hfind hmem, ?_⟩
  rw [signupState_of_mem hfind hmem, signupState_of_mem hfind hmem]

/-- Witness for C1: on the seed, signing up "michael@mergington.edu" — who
is already in "Chess Club" — is a no-op success. -/
theorem c1_signup_idempotent_witness :
    findActivity activities "Chess Club" = some chessClub ∧
    "michael@mergington.edu" ∈ chessClub.participants ∧
    (signup_for_activity activities "Chess Club" "michael@mergington.edu" =
        .ok (activities, "Student already signed up for this activity") ∧
      signupState (signupState activities "Chess Club" "michael@mergington.edu")
          "Chess Club" "michael@mergington.edu" =
        signupState activities "Chess Club" "michael@mergington.edu") :=
  ⟨by decide, by decide,
    c1_signup_idempotent activities "Chess Club" "michael@mergington.edu"
      chessClub (by decide) (by decide)⟩

/-- C2: fresh signup appends `e` at the end of the roster (earlier entries
and their order preserved), afterwards `e` occurs exactly once and the
roster length grew by one, and the success message names both the email
and the activity. -/
theorem c2_signup_success (d : Directory) (n e : String) (act : Activity)
    (hfind : findActivity d n = some act) (hmem : e ∉ act.participants) :
    signup_for_activity d n e =
      .ok (updateActivity d n { act with participants := act.participants ++ [e] },
           s!"Signed up {e} for {n}") ∧
    findActivity (signupState d n e) n =
      some { act with participants := act.participants ++ [e] } ∧
    (act.participants ++ [e]).count e = 1 ∧
    (act.participants ++ [e]).length = act.participants.length + 1 := by
  refine ⟨signup_of_not_mem hfind hmem, ?_, ?_, by simp⟩
  · rw [signupState_of_not_mem hfind hmem]
    exact find_update_self _ hfind
  · simp [List.count_append, List.count_eq_zero.mpr hmem]

/-- Witness for C2: signing up "new@x.edu" for "Chess Club" on the seed. -/
theorem c2_signup_success_witness :
    findActivity activities "Chess Club" = some chessClub ∧
    "new@x.edu" ∉ chessClub.participants ∧
    (signup_for_activity activities "Chess Club" "new@x.edu" =
        .ok (updateActivity activities "Chess Club"
               { chessClub with participants := chessClub.participants ++ ["new@x.edu"] },
             "Signed up new@x.edu for Chess Club") ∧
      findActivity (signupState activities "Chess Club" "new@x.edu") "Chess Club" =
        some { chessClub with participants := chessClub.participants ++ ["new@x.edu"] } ∧
      (chessClub.participants ++ ["new@x.edu"]).count "new@x.edu" = 1 ∧
      (chessClub.participants ++ ["new@x.edu"]).length =
        chessClub.participants.length + 1) :=
  ⟨by decide, by decide,
    c2_signup_success activities "Chess Club" "new@x.edu" chessClub
      (by decide) (by decide)⟩

/-- C4: starting from the seed directory, after any sequence of signup and
remove calls (successful or failing — failures mutate nothing), no email
appears more than once within any activity's participants. -/
theorem c4_no_duplicates (ops : List Op) :
    NoDupDirectory (runOps activities ops) :=
  noDup_runOps activities ops activities_noDup

/-- C5: when the activity name is not a key of the directory, both signup
and remove raise HTTP 404 with detail "Activity not found" and leave the
directory unchanged. -/
theorem c5_activity_not_found (d : Directory) (n e : String)
    (hfind : findActivity d n = none) :
    signup_for_activity d n e = .error ⟨404, "Activity not found"⟩ ∧
    remove_participant d n e = .error ⟨404, "Activity not found"⟩ ∧
    signupState d n e = d ∧
    removeState d n e = d :=
  ⟨signup_of_not_found e hfind, remove_of_not_found e hfind,
    signupState_of_not_found e hfind, removeState_of_not_found e hfind⟩

/-- Witness for C5: "Nonexistent Club" is not in the seed directory. -/
theorem c5_activity_not_found_witness :
    findActivity activities "Nonexistent Club" = none ∧
    (signup_for_activity activities "Nonexistent Club" "test@mergington.edu" =
        .error ⟨404, "Activity not found"⟩ ∧
      remove_participant activities "Nonexistent Club" "test@mergington.edu" =
        .error ⟨404, "Activity not found"⟩ ∧
      signupState activities "Nonexistent Club" "test@mergington.edu" = activities ∧
      removeState activities "Nonexistent Club" "test@mergington.edu" = activities) :=
  ⟨by decide,
    c5_activity_not_found activities "Nonexistent Club" "test@mergington.edu"
      (by decide)⟩

/-- C6: removing an email that is not in the activity's participants raises
HTTP 404 with detail "Participant not found in this activity" and leaves
the entire directory unchanged. -/
theorem c6_participant_not_found (d : Directory) (n e : String)
    (act : Activity)
    (hfind : findActivity d n = some act) (hmem : e ∉ act.participants) :
    remove_participant d n e =
      .error ⟨404, "Participant not found in this activity"⟩ ∧
    removeState d n e = d :=
  ⟨remove_of_not_mem hfind hmem, removeState_of_not_mem hfind hmem⟩

/-- Witness for C6: "never-signed-up@x.edu" is not in "Chess Club". -/
theorem c6_participant_not_found_witness :
    findActivity activities "Chess Club" = some chessClub ∧
    "never-signed-up@x.edu" ∉ chessClub.participants ∧
    (remove_participant activities "Chess Club" "never-signed-up@x.edu" =
        .error ⟨404, "Participant not found in this activity"⟩ ∧
      removeState activities "Chess Club" "never-signed-up@x.edu" = activities) :=
  ⟨by decide, by decide,
    c6_participant_not_found activities "Chess Club" "never-signed-up@x.edu"
      chessClub (by decide) (by decide)⟩

theorem erase_append_self {l : List String} {e : String} (h : e ∉ l) :
    (l ++ [e]).erase e = l := by
  rw [List.erase_append_right _ h, List.erase_cons_head, List.append_nil]

/-- C3 counterexample: the round-trip law fails for an email that is
already registered.  On the seed, "michael@mergington.edu" is in
"Chess Club"; signup is a no-op, yet the subsequent remove deletes him,
so the roster is not restored to its pre-signup state. -/
theorem c3_counterexample :
    findActivity activities "Chess Club" = some chessClub ∧
    "michael@mergington.edu" ∈ chessClub.participants ∧
    (findActivity
        (removeState (signupState activities "Chess Club" "michael@mergington.edu")
          "Chess Club" "michael@mergington.edu") "Chess Club").map
        Activity.participants = some ["daniel@mergington.edu"] ∧
    some ["daniel@mergington.edu"] ≠
      (findActivity activities "Chess Club").map Activity.participants := by
  decide

/-- C3 amended: for every email `e` NOT already in activity `n`'s
participants, signup followed by remove restores the whole directory to
its pre-signup state, and a further remove of the same email fails with
ParticipantNotFound. -/
theorem c3_roundtrip (d : Directory) (n e : String) (act : Activity)
    (hfind : findActivity d n = some act) (hmem : e ∉ act.participants) :
    remove_participant (signupState d n e) n e =
      .ok (d, s!"Removed {e} from {n}") ∧
    removeState (signupState d n e) n e = d ∧
    remove_participant (removeState (signupState d n e) n e) n e =
      .error ⟨404, "Participant not found in this activity"⟩ := by
  have hfind' : findActivity (signupState d n e) n =
      some { act with participants := act.participants ++ [e] } := by
    rw [signupState_of_not_mem hfind hmem]
    exact find_update_self _ hfind
  have hmem' : e ∈ ({ act with participants := act.participants ++ [e] } :
      Activity).participants := by simp
  have hrec : ({ act with participants :=
      (act.participants ++ [e]).erase e } : Activity) = act := by
    rw [erase_append_self hmem]
  have hok : remove_participant (signupState d n e) n e =
      .ok (updateActivity (signupState d n e) n
             { act with participants := (act.participants ++ [e]).erase e },
           s!"Removed {e} from {n}") := remove_of_mem hfind' hmem'
  have hback : updateActivity (signupState d n e) n
      { act with participants := (act.participants ++ [e]).erase e } = d := by
    rw [hrec, signupState_of_not_mem hfind hmem, update_update,
        update_find_self hfind]
  have hstate : removeState (signupState d n e) n e = d := by
    rw [removeState_of_mem hfind' hmem']
    exact hback
  refine ⟨?_, hstate, ?_⟩
  · rw [hok, hback]
  · rw [hstate]
    exact remove_of_not_mem hfind hmem

/-- Witness for the amended C3: signup then remove of "new@x.edu" on
"Chess Club" restores the seed. -/
theorem c3_roundtrip_witness :
    findActivity activities "Chess Club" = some chessClub ∧
    "new@x.edu" ∉ chessClub.participants ∧
    (remove_participant (signupState activities "Chess Club" "new@x.edu")
        "Chess Club" "new@x.edu" =
      .ok (activities, "Removed new@x.edu from Chess Club") ∧
    removeState (signupState activities "Chess Club" "new@x.edu")
        "Chess Club" "new@x.edu" = activities ∧
    remove_participant
        (removeState (signupState activities "Chess Club" "new@x.edu")
          "Chess Club" "new@x.edu") "Chess Club" "new@x.edu" =
      .error ⟨404, "Participant not found in this activity"⟩) :=
  ⟨by decide, by decide,
    c3_roundtrip activities "Chess Club" "new@x.edu" chessClub
      (by decide) (by decide)⟩

/-- C7: capacity is not enforced.  Even when the roster is already at or
over `max_participants`, a fresh signup succeeds and appends the email;
the handler never consults `max_participants`. -/
theorem c7_capacity_not_enforced (d : Directory) (n e : String)
    (act : Activity)
    (hfind : findActivity d n = some act) (hmem : e ∉ act.participants)
    (_hcap : act.max_participants ≤ act.participants.length) :
    signup_for_activity d n e =
      .ok (updateActivity d n { act with participants := act.participants ++ [e] },
           s!"Signed up {e} for {n}") ∧
    findActivity (signupState d n e) n =
      some { act with participants := act.participants ++ [e] } := by
  refine ⟨signup_of_not_mem hfind hmem, ?_⟩
  rw [signupState_of_not_mem hfind hmem]
  exact find_update_self _ hfind

/-- An activity already at its capacity of 1, used to exercise C7. -/
def fullClub : Activity :=
  { description := "A full activity"
    schedule := "Mondays"
    max_participants := 1
    participants := ["a@x.edu"] }

/-- A directory whose single activity is at capacity. -/
def fullDirectory : Directory := [("Full Club", fullClub)]

/-- Witness for C7: signing up a second student for an activity whose
capacity is 1 still succeeds. -/
theorem c7_capacity_not_enforced_witness :
    findActivity fullDirectory "Full Club" = some fullClub ∧
    "b@x.edu" ∉ fullClub.participants ∧
    fullClub.max_participants ≤ fullClub.participants.length ∧
    (signup_for_activity fullDirectory "Full Club" "b@x.edu" =
        .ok (updateActivity fullDirectory "Full Club"
               { fullClub with participants := fullClub.participants ++ ["b@x.edu"] },
             "Signed up b@x.edu for Full Club") ∧
      findActivity (signupState fullDirectory "Full Club" "b@x.edu") "Full Club" =
        some { fullClub with participants := fullClub.participants ++ ["b@x.edu"] }) :=
  ⟨by decide, by decide, by decide,
    c7_capacity_not_enforced fullDirectory "Full Club" "b@x.edu" fullClub
      (by decide) (by decide) (by decide)⟩

/-- C8: removing a registered email deletes exactly its first occurrence
(`l1 ++ e :: l2` with `e ∉ l1` becomes `l1 ++ l2`) and returns a success
message naming both the email and the activity. -/
theorem c8_remove_success (d : Directory) (n e : String) (act : Activity)
    (l1 l2 : List String)
    (hfind : findActivity d n = some act)
    (hsplit : act.participants = l1 ++ e :: l2) (hl1 : e ∉ l1) :
    remove_participant d n e =
      .ok (updateActivity d n { act with participants := l1 ++ l2 },
           s!"Removed {e} from {n}") := by
  have hmem : e ∈ act.participants := by simp [hsplit]
  have herase : act.participants.erase e = l1 ++ l2 := by
    rw [hsplit, List.erase_append_right _ hl1, List.erase_cons_head]
  rw [remove_of_mem hfind hmem, herase]

/-- Witness for C8: removing "michael@mergington.edu" (the first entry) of
"Chess Club" leaves only "daniel@mergington.edu". -/
theorem c8_remove_success_witness :
    findActivity activities "Chess Club" = some chessClub ∧
    chessClub.participants =
      [] ++ "michael@mergington.edu" :: ["daniel@mergington.edu"] ∧
    "michael@mergington.edu" ∉ ([] : List String) ∧
    remove_participant activities "Chess Club" "michael@mergington.edu" =
      .ok (updateActivity activities "Chess Club"
             { chessClub with participants := [] ++ ["daniel@mergington.edu"] },
           "Removed michael@mergington.edu from Chess Club") :=
  ⟨by decide, by decide, by decide,
    c8_remove_success activities "Chess Club" "michael@mergington.edu" chessClub
      [] ["daniel@mergington.edu"] (by decide) (by decide) (by decide)⟩

/-- C9: frame condition.  Whatever the outcome, a signup or remove call
leaves the key set unchanged, leaves every other activity's record
unchanged, and leaves the named activity's description, schedule and
max_participants unchanged — at most its participants list moves. -/
theorem c9_frame (d : Directory) (n e k : String) (hk : k ≠ n) :
    keys (signupState d n e) = keys d ∧
    keys (removeState d n e) = keys d ∧
    findActivity (signupState d n e) k = findActivity d k ∧
    findActivity (removeState d n e) k = findActivity d k ∧
    (findActivity (signupState d n e) n).map Activity.description =
      (findActivity d n).map Activity.description ∧
    (findActivity (signupState d n e) n).map Activity.schedule =
      (findActivity d n).map Activity.schedule ∧
    (findActivity (signupState d n e) n).map Activity.max_participants =
      (findActivity d n).map Activity.max_participants ∧
    (findActivity (removeState d n e) n).map Activity.description =
      (findActivity d n).map Activity.description ∧
    (findActivity (removeState d n e) n).map Activity.schedule =
      (findActivity d n).map Activity.schedule ∧
    (findActivity (removeState d n e) n).map Activity.max_participants =
      (findActivity d n).map Activity.max_participants := by
  rcases hfa : findActivity d n with _ | act
  · rw [signupState_of_not_found e hfa, removeState_of_not_found e hfa]
    simp [hfa]
  · by_cases hmem : e ∈ act.participants
    · rw [signupState_of_mem hfa hmem, removeState_of_mem hfa hmem,
          find_update_self _ hfa, hfa]
      exact ⟨rfl, keys_update d n _, rfl, find_update_ne _ hk, rfl, rfl, rfl,
        rfl, rfl, rfl⟩
    · rw [signupState_of_not_mem hfa hmem, removeState_of_not_mem hfa hmem,
          find_update_self _ hfa, hfa]
      exact ⟨keys_update d n _, rfl, find_update_ne _ hk, rfl, rfl, rfl, rfl,
        rfl, rfl, rfl⟩

/-- Witness for C9: on the seed, a signup to and a remove from
"Chess Club" touch neither the key list, nor "Math Club", nor the
non-roster fields of "Chess Club" itself. -/
theorem c9_frame_witness :
    ("Math Club" : String) ≠ "Chess Club" ∧
    (keys (signupState activities "Chess Club" "x@x.edu") = keys activities ∧
    keys (removeState activities "Chess Club" "x@x.edu") = keys activities ∧
    findActivity (signupState activities "Chess Club" "x@x.edu") "Math Club" =
      findActivity activities "Math Club" ∧
    findActivity (removeState activities "Chess Club" "x@x.edu") "Math Club" =
      findActivity activities "Math Club" ∧
    (findActivity (signupState activities "Chess Club" "x@x.edu") "Chess Club").map
        Activity.description =
      (findActivity activities "Chess Club").map Activity.description ∧
    (findActivity (signupState activities "Chess Club" "x@x.edu") "Chess Club").map
        Activity.schedule =
      (findActivity activities "Chess Club").map Activity.schedule ∧
    (findActivity (signupState activities "Chess Club" "x@x.edu") "Chess Club").map
        Activity.max_participants =
      (findActivity activities "Chess Club").map Activity.max_participants ∧
    (findActivity (removeState activities "Chess Club" "x@x.edu") "Chess Club").map
        Activity.description =
      (findActivity activities "Chess Club").map Activity.description ∧
    (findActivity (removeState activities "Chess Club" "x@x.edu") "Chess Club").map
        Activity.schedule =
      (findActivity activities "Chess Club").map Activity.schedule ∧
    (findActivity (removeState activities "Chess Club" "x@x.edu") "Chess Club").map
        Activity.max_participants =
      (findActivity activities "Chess Club").map Activity.max_participants) :=
  ⟨by decide,
    c9_frame activities "Chess Club" "x@x.edu" "Math Club" (by decide)⟩

/-- C10: when the email is already registered, the message is the fixed
string "Student already signed up for this activity", naming neither the
email nor the activity, whatever `d`, `n` and `e` are. -/
theorem c10_already_signed_up_message (d : Directory) (n e : String)
    (act : Activity)
    (hfind : findActivity d n = some act) (hmem : e ∈ act.participants) :
    signup_for_activity d n e =
      .ok (d, "Student already signed up for this activity") :=
  signup_of_mem hfind hmem

/-- Witness for C10: duplicate signup of "emma@mergington.edu" to
"Programming Class" returns the fixed message. -/
theorem c10_already_signed_up_message_witness :
    findActivity activities "Programming Class" = some programmingClass ∧
    "emma@mergington.edu" ∈ programmingClass.participants ∧
    signup_for_activity activities "Programming Class" "emma@mergington.edu" =
      .ok (activities, "Student already signed up for this activity") :=
  ⟨by decide, by decide,
    c10_already_signed_up_message activities "Programming Class"
      "emma@mergington.edu" programmingClass (by decide) (by decide)⟩

end Mergington
